import Mathlib

/-!
Verification of the turbo-process supervision engine against its
natural-language specification.  The definitions below are a shallow
embedding of the TypeScript sources: restart policy and backoff
(src/core/restart-manager.ts, src/utils/helpers.ts), process manager
exit handling (src/core/process-manager.ts), resource monitoring
(src/components/resource-monitor.ts), log rotation
(src/components/log-manager.ts) and state persistence
(src/core/state-manager.ts).  Machine integers are modelled as Nat/Int,
JavaScript floating-point quantities as rationals, and filesystem or
clock effects as explicit parameters.
-/

namespace TurboProcess

/-! ## Constants (src/utils/constants.ts) -/

def CRASH_LOOP_THRESHOLD : Nat := 5

/-- Crash window in seconds. -/
def CRASH_LOOP_WINDOW : Nat := 60

def MEMORY_CHECK_CONSECUTIVE : Nat := 3

def CPU_CHECK_CONSECUTIVE : Nat := 5

def CPU_ROLLING_AVERAGE_SAMPLES : Nat := 3

def RESOURCE_HISTORY_SIZE : Nat := 60

def LOG_MAX_FILES : Nat := 5

/-- 0.8, the fraction of the memory limit at which a warning fires. -/
def MEMORY_WARNING_THRESHOLD : ℚ := 4 / 5

structure RestartPolicy where
  maxRestarts : Nat
  restartWindow : Nat
  minDelay : Nat
  maxDelay : Nat
deriving DecidableEq, Repr

def DEFAULT_RESTART_POLICY : RestartPolicy :=
  { maxRestarts := 10, restartWindow := 60, minDelay := 1000, maxDelay := 30000 }

/-! ## Backoff helper (src/utils/helpers.ts, calculateBackoffDelay) -/

def calculateBackoffDelay (attempt minDelay maxDelay : Nat) : Nat :=
  min (minDelay * 2 ^ attempt) maxDelay

/-! ## Restart manager (src/core/restart-manager.ts)

The per-process RestartState mirrors the interface of the source.
Timestamps are wall-clock milliseconds, modelled as Int.  The method
handleExit is modelled as a pure function of the state, the policy, the
current time and the exit data; it returns the updated state, the
events emitted during the call, whether the restart was granted, and
the backoff delay slept before returning when granted. -/

structure RestartState where
  attempts : Nat
  crashes : List Int
  lastRestartTime : Int
  inCrashLoop : Bool
deriving DecidableEq, Repr

/-- State installed by RestartManager.register. -/
def initialRestartState : RestartState :=
  { attempts := 0, crashes := [], lastRestartTime := 0, inCrashLoop := false }

inductive RestartEvent
  | crashLoop (crashes : Nat)
  | maxRestartsHit (attempts : Nat)
  | restartScheduled (attempt delay : Nat)
deriving DecidableEq, Repr

structure ExitResult where
  state : RestartState
  events : List RestartEvent
  grant : Bool
  delay : Option Nat
deriving DecidableEq, Repr

/-- RestartManager.handleExit.  The source records the crash time and
prunes the window first, then checks the crash loop, then max
restarts, then the clean-exit condition, and only then computes the
backoff delay and grants. -/
def handleExit (s : RestartState) (p : RestartPolicy) (now : Int)
    (exitCode : Int) (signal : Option String) : ExitResult :=
  let crashes2 := (s.crashes ++ [now]).filter
    (fun t => decide (now - t < (CRASH_LOOP_WINDOW : Int) * 1000))
  if CRASH_LOOP_THRESHOLD ≤ crashes2.length then
    { state := { s with crashes := crashes2, inCrashLoop := true },
      events := [RestartEvent.crashLoop crashes2.length],
      grant := false, delay := none }
  else if p.maxRestarts ≤ s.attempts then
    { state := { s with crashes := crashes2 },
      events := [RestartEvent.maxRestartsHit s.attempts],
      grant := false, delay := none }
  else if exitCode = 0 ∧ signal = none then
    { state := { s with crashes := crashes2 },
      events := [], grant := false, delay := none }
  else
    let d := calculateBackoffDelay s.attempts p.minDelay p.maxDelay
    { state := { s with crashes := crashes2, attempts := s.attempts + 1,
                        lastRestartTime := now },
      events := [RestartEvent.restartScheduled (s.attempts + 1) d],
      grant := true, delay := some d }

/-- RestartManager.resetAttempts. -/
def resetAttempts (s : RestartState) : RestartState :=
  { s with attempts := 0, inCrashLoop := false }

/-- One exit notification: time, exit code, optional signal. -/
abbrev ExitCall := Int × Int × Option String

/-- Sequential handleExit calls for one registered process id. -/
def runExitTrace (p : RestartPolicy) (s : RestartState) :
    List ExitCall → RestartState × List ExitResult
  | [] => (s, [])
  | c :: rest =>
    let r := handleExit s p c.1 c.2.1 c.2.2
    let t := runExitTrace p r.state rest
    (t.1, r :: t.2)

/-! ## Process manager data model (src/types.ts, src/core/process-manager.ts) -/

inductive ProcessStatus
  | starting
  | running
  | stopping
  | stopped
  | errored
  | restarting
  | crashed
deriving DecidableEq, Repr

/-- Immutable declaration of a supervised program.  memoryLimit is kept
in bytes, the result of parseMemoryLimit on the configured string. -/
structure ProcessConfig where
  name : String
  script : String
  args : List String
  watch : Bool
  restartDelay : Nat
  maxRestarts : Nat
  memoryLimit : Option ℚ
  cpuLimit : Option ℚ
  healthCheck : Option String
deriving DecidableEq, Repr

structure ProcessInfo where
  id : String
  name : String
  pid : Nat
  status : ProcessStatus
  uptime : Nat
  restartCount : Nat
  cpu : ℚ
  memory : ℚ
  config : ProcessConfig
  startTime : Int
  lastRestartTime : Option Int
  lastRestartReason : Option String
deriving DecidableEq, Repr

/-- The registry entry built in ProcessManager.startProcess before the
spawn: pid 0, status starting, restartCount 0. -/
def mkStartingInfo (id : String) (cfg : ProcessConfig) (now : Int) : ProcessInfo :=
  { id := id, name := cfg.name, pid := 0, status := ProcessStatus.starting,
    uptime := 0, restartCount := 0, cpu := 0, memory := 0, config := cfg,
    startTime := now, lastRestartTime := none, lastRestartReason := none }

/-- The update applied when the spawn succeeds: the pid is recorded and
the status moves to running. -/
def applySpawnSuccess (e : ProcessInfo) (childPid : Nat) : ProcessInfo :=
  { e with pid := childPid, status := ProcessStatus.running }

/-- The status update at the top of the child exit handler: stopped on
exit code 0, errored otherwise (including exit by signal, where the
code is null).  The pid field is left untouched. -/
def applyExitStatus (e : ProcessInfo) (code : Option Int) : ProcessInfo :=
  { e with status := if code = some 0 then ProcessStatus.stopped
                     else ProcessStatus.errored }

/-- The child exit handler: update the status, then consult the restart
manager with the exit code coerced through code or 0 and the optional
signal.  When the result denies, the handler performs no respawn and
the entry keeps the status set here. -/
def handleChildExit (e : ProcessInfo) (rs : RestartState) (p : RestartPolicy)
    (now : Int) (code : Option Int) (signal : Option String) :
    ProcessInfo × ExitResult :=
  (applyExitStatus e code, handleExit rs p now (code.getD 0) signal)

/-- The invariant claimed by the specification: a positive os pid
exactly in the states starting, running and stopping. -/
def pidStateInvariant (e : ProcessInfo) : Prop :=
  0 < e.pid ↔ (e.status = ProcessStatus.starting ∨
               e.status = ProcessStatus.running ∨
               e.status = ProcessStatus.stopping)

instance (e : ProcessInfo) : Decidable (pidStateInvariant e) := by
  unfold pidStateInvariant; infer_instance

/-- ProcessManager.restartProcess: after stopping the old entry and
starting a fresh one with the same config, the restart accounting is
written onto the fresh entry; the reason is always the literal manual. -/
def restartProcessInfo (oldInfo newStarted : ProcessInfo) (now : Int) : ProcessInfo :=
  { newStarted with restartCount := oldInfo.restartCount + 1,
                    lastRestartTime := some now,
                    lastRestartReason := some "manual" }

inductive ThresholdType
  | memory
  | cpu
deriving DecidableEq, Repr

structure ThresholdEvent where
  processId : String
  type : ThresholdType
  current : ℚ
  limit : ℚ
deriving DecidableEq, Repr

/-- The threshold-exceeded subscription installed in the ProcessManager
constructor: it restarts the process through restartProcess. -/
def onThresholdExceeded (_ev : ThresholdEvent) (oldInfo newStarted : ProcessInfo)
    (now : Int) : ProcessInfo :=
  restartProcessInfo oldInfo newStarted now

/-- The watcher change subscription installed in the ProcessManager
constructor: it also restarts the process through restartProcess. -/
def onWatchChange (oldInfo newStarted : ProcessInfo) (now : Int) : ProcessInfo :=
  restartProcessInfo oldInfo newStarted now

/-! ## ProcessManager.stopProcess -/

/-- The manager state visible to stopProcess: the registry entries and
the ids holding a live ChildProcess in the processes map. -/
structure ManagerState where
  registry : List ProcessInfo
  children : List String
deriving DecidableEq, Repr

def regGet (r : List ProcessInfo) (id : String) : Option ProcessInfo :=
  r.find? (fun e => e.id = id)

/-- ProcessManager.stopProcess.  Both guards throw before any mutation:
an unknown id raises Process not found, a registry entry without a live
child raises Process not running.  Only after both checks does the
teardown run (status stopping, SIGTERM, wait, cleanup, removal). -/
def stopProcess (st : ManagerState) (id : String) : ManagerState × Option String :=
  match regGet st.registry id with
  | none => (st, some ("Process not found: " ++ id))
  | some _ =>
    if st.children.contains id then
      ({ registry := st.registry.filter (fun e => decide (e.id ≠ id)),
         children := st.children.filter (fun c => decide (c ≠ id)) }, none)
    else (st, some ("Process not running: " ++ id))

/-! ## Resource monitor (src/components/resource-monitor.ts)

Floating-point CPU percentages and RSS byte counts are modelled as
rationals.  One pollMetrics tick with a successful pidusage sample
becomes the pure function pollStep. -/

structure ResourceMetrics where
  cpu : ℚ
  memory : ℚ
  timestamp : Int
deriving DecidableEq, Repr

inductive MonitorEvent
  | metricsEv (cpu memory : ℚ)
  | memoryWarning (current limit percentage : ℚ)
  | thresholdMemory (current limit : ℚ)
  | thresholdCpu (current limit : ℚ)
deriving DecidableEq, Repr

structure MonitorState where
  pid : Nat
  memoryLimit : Option ℚ
  cpuLimit : Option ℚ
  history : List ResourceMetrics
  cpuSamples : List ℚ
  memoryExceededCount : Nat
  cpuExceededCount : Nat
deriving DecidableEq, Repr

/-- ResourceMonitor.startMonitoring: fresh state with empty history and
zero counters. -/
def startMonitoring (pid : Nat) (memoryLimit cpuLimit : Option ℚ) : MonitorState :=
  { pid := pid, memoryLimit := memoryLimit, cpuLimit := cpuLimit,
    history := [], cpuSamples := [], memoryExceededCount := 0,
    cpuExceededCount := 0 }

/-- Push an element and drop the front when the buffer exceeds the
size, exactly the push plus conditional shift of the source. -/
def pushTrim (size : Nat) (l : List ℚ) (x : ℚ) : List ℚ :=
  let l1 := l ++ [x]
  if size < l1.length then l1.drop 1 else l1

def pushTrimMetrics (size : Nat) (l : List ResourceMetrics) (x : ResourceMetrics) :
    List ResourceMetrics :=
  let l1 := l ++ [x]
  if size < l1.length then l1.drop 1 else l1

def listAvg (l : List ℚ) : ℚ := l.sum / (l.length : ℚ)

/-- The memory-threshold block of pollMetrics.  The guard mirrors the
JavaScript truthiness test on the numeric limit.  Inside the exceeding
branch the counter is incremented, the 80 percent advisory check runs,
and on the third consecutive hit the threshold event fires and the
counter resets; any sample below the limit resets the counter. -/
def memCheck (limit : Option ℚ) (count : Nat) (memory : ℚ) :
    Nat × List MonitorEvent :=
  match limit with
  | some lim =>
    if lim = 0 then (count, [])
    else if lim ≤ memory then
      let cnt := count + 1
      let warnEvents :=
        if lim * MEMORY_WARNING_THRESHOLD ≤ memory then
          [MonitorEvent.memoryWarning memory lim (memory / lim * 100)]
        else []
      if MEMORY_CHECK_CONSECUTIVE ≤ cnt then
        (0, warnEvents ++ [MonitorEvent.thresholdMemory memory lim])
      else (cnt, warnEvents)
    else (0, [])
  | none => (count, [])

/-- The cpu-threshold block of pollMetrics, applied to the rolling
average; the else branch resets the counter, also when no limit is
configured. -/
def cpuCheck (limit : Option ℚ) (count : Nat) (avgCpu : ℚ) :
    Nat × List MonitorEvent :=
  match limit with
  | some lim =>
    if lim ≠ 0 ∧ lim ≤ avgCpu then
      let cnt := count + 1
      if CPU_CHECK_CONSECUTIVE ≤ cnt then
        (0, [MonitorEvent.thresholdCpu avgCpu lim])
      else (cnt, [])
    else (0, [])
  | none => (0, [])

/-- One pollMetrics tick on a live pid: record the sample in the
history ring, update the three-sample cpu window, emit the metrics
event with the rolling average, then run the two threshold blocks. -/
def pollStep (s : MonitorState) (cpu memory : ℚ) (now : Int) :
    MonitorState × List MonitorEvent :=
  let history2 := pushTrimMetrics RESOURCE_HISTORY_SIZE s.history
    { cpu := cpu, memory := memory, timestamp := now }
  let cpuSamples2 := pushTrim CPU_ROLLING_AVERAGE_SAMPLES s.cpuSamples cpu
  let avgCpu := listAvg cpuSamples2
  let mres := memCheck s.memoryLimit s.memoryExceededCount memory
  let cres := cpuCheck s.cpuLimit s.cpuExceededCount avgCpu
  ({ s with history := history2, cpuSamples := cpuSamples2,
            memoryExceededCount := mres.1, cpuExceededCount := cres.1 },
   MonitorEvent.metricsEv avgCpu memory :: (mres.2 ++ cres.2))

/-- One monitored sample: cpu percentage, rss bytes, timestamp. -/
abbrev Sample := ℚ × ℚ × Int

/-- A sequence of pollMetrics ticks, collecting all emitted events. -/
def monitorRun (s : MonitorState) : List Sample → MonitorState × List MonitorEvent
  | [] => (s, [])
  | x :: rest =>
    let step := pollStep s x.1 x.2.1 x.2.2
    let t := monitorRun step.1 rest
    (t.1, step.2 ++ t.2)

/-- The rolling averages successively computed by the monitor over a
sample list, starting from a given cpu window. -/
def rollAvgs (window : List ℚ) : List Sample → List ℚ
  | [] => []
  | x :: rest =>
    let w2 := pushTrim CPU_ROLLING_AVERAGE_SAMPLES window x.1
    listAvg w2 :: rollAvgs w2 rest

/-- Length of the longest run of consecutive true flags, where cur is
the length of the run open on entry. -/
def maxRunFrom (cur : Nat) : List Bool → Nat
  | [] => cur
  | b :: bs => if b then maxRunFrom (cur + 1) bs else max cur (maxRunFrom 0 bs)

/-! ## Log rotation (src/components/log-manager.ts)

The directory holding one entry log is modelled as a finite map from
file names to content identifiers.  rename throws when the source is
missing; inside the shift loop that error is caught and skipped, while
the final rename of the live log is guarded only by the outer catch,
which aborts the rest of rotateLogs. -/

abbrev FileSys := List (String × Nat)

def fsGet (fs : FileSys) (name : String) : Option Nat :=
  match fs.find? (fun e => decide (e.1 = name)) with
  | some e => some e.2
  | none => none

def fsRemove (fs : FileSys) (name : String) : FileSys :=
  fs.filter (fun e => decide (e.1 ≠ name))

def fsSet (fs : FileSys) (name : String) (content : Nat) : FileSys :=
  fsRemove fs name ++ [(name, content)]

/-- POSIX rename: fails (none) when the source is absent, otherwise
moves the content, replacing any destination. -/
def fsRename (fs : FileSys) (src dst : String) : Option FileSys :=
  match fsGet fs src with
  | none => none
  | some c => some (fsSet (fsRemove fs src) dst c)

/-- rename wrapped in the per-iteration try/catch of the shift loop: a
missing source is skipped. -/
def tryRename (fs : FileSys) (src dst : String) : FileSys :=
  (fsRename fs src dst).getD fs

/-- Numbered rotation file name. -/
def logN (base : String) (i : Nat) : String := base ++ "." ++ toString i

/-- The shift loop of rotateLogs: for i from LOG_MAX_FILES minus one
down to 1, rename oldPath to base.(i+1), where oldPath is base.i except
at i equal 1, where the source uses the live log path itself. -/
def rotateShift (base : String) (fs : FileSys) : Nat → FileSys
  | 0 => fs
  | i + 1 =>
    let oldPath := if i + 1 = 1 then base else logN base (i + 1)
    let newPath := logN base (i + 2)
    rotateShift base (tryRename fs oldPath newPath) i

structure RotateResult where
  fs : FileSys
  streamReopened : Bool
deriving DecidableEq, Repr

/-- LogManager.rotateLogs: end the stream, run the shift loop, unlink
base.LOG_MAX_FILES (missing file ignored), then rename the live log to
base.1 and open a fresh stream.  The last two steps sit under the outer
try alone: when that rename throws, the catch logs and the fresh
stream with content fresh is never created. -/
def rotateLogs (base : String) (fresh : Nat) (fs : FileSys) : RotateResult :=
  let fs1 := rotateShift base fs (LOG_MAX_FILES - 1)
  let fs2 := fsRemove fs1 (logN base LOG_MAX_FILES)
  match fsRename fs2 base (logN base 1) with
  | none => { fs := fs2, streamReopened := false }
  | some fs3 => { fs := fsSet fs3 base fresh, streamReopened := true }

/-! ## State persistence (src/core/state-manager.ts)

loadState factors through the outcome of reading and JSON-parsing the
state file: the file may be absent, unreadable or syntactically
corrupt (readFile or JSON.parse throws), or parse into a value whose
version and processes fields may still fail the structural check.
The JavaScript truthiness test on version is false exactly on the
empty string, and a missing processes array fails Array.isArray. -/

inductive StateFileRead
  | absent
  | unreadable
  | parsed (version : String) (processes : Option (List ProcessInfo))
deriving DecidableEq, Repr

/-- StateManager.loadState: returns the recovered process list and
whether the state file was renamed aside to the backup path. -/
def loadState (file : StateFileRead) : List ProcessInfo × Bool :=
  match file with
  | StateFileRead.absent => ([], false)
  | StateFileRead.unreadable => ([], true)
  | StateFileRead.parsed version processes =>
    if version = "" then ([], false)
    else
      match processes with
      | none => ([], false)
      | some l => (l, false)

/-! ## Concrete inputs used by witnesses and counterexamples -/

def sampleConfig : ProcessConfig :=
  { name := "api", script := "app.js", args := [], watch := false,
    restartDelay := 1000, maxRestarts := 10, memoryLimit := none,
    cpuLimit := none, healthCheck := none }

/-- An entry left in the registry after a crash whose restart was
denied: status errored, with the pid of the dead child still recorded. -/
def erroredDemoInfo : ProcessInfo :=
  { mkStartingInfo "abc1234567" sampleConfig 0 with
      status := ProcessStatus.errored, pid := 4242 }

/-- A restart state whose 60 second window already holds four crash
times, as after four rapid non-zero exits of the same process id. -/
def fourCrashState : RestartState :=
  { attempts := 0, crashes := [0, 0, 0, 0], lastRestartTime := 0,
    inCrashLoop := false }

/-- A memory threshold-exceeded event as emitted by the resource
monitor for a 64 MiB limit exceeded by an 80 MB resident set. -/
def memThresholdDemoEvent : ThresholdEvent :=
  { processId := "abc1234567", type := ThresholdType.memory,
    current := 80000000, limit := 67108864 }

/-- A log directory in the steady state the specification expects after
several rotations: a live app.log plus five numbered history files. -/
def rotateDemoFs : FileSys :=
  [("app.log", 100), ("app.log.1", 1), ("app.log.2", 2),
   ("app.log.3", 3), ("app.log.4", 4), ("app.log.5", 5)]

/-- Restart book of a repeatedly crashing id after one granted restart
at time a. -/
def loopState1 (a : Int) : RestartState :=
  { attempts := 1, crashes := [a], lastRestartTime := a, inCrashLoop := false }

def loopState2 (a b : Int) : RestartState :=
  { attempts := 2, crashes := [a, b], lastRestartTime := b,
    inCrashLoop := false }

def loopState3 (a b c : Int) : RestartState :=
  { attempts := 3, crashes := [a, b, c], lastRestartTime := c,
    inCrashLoop := false }

def loopState4 (a b c d : Int) : RestartState :=
  { attempts := 4, crashes := [a, b, c, d], lastRestartTime := d,
    inCrashLoop := false }

/-- After the fifth crash inside the window the book is in the crash
loop; the fifth call denied, so attempts and the last restart time are
unchanged from the fourth state. -/
def loopState5 (a b c d e : Int) : RestartState :=
  { attempts := 4, crashes := [a, b, c, d, e], lastRestartTime := d,
    inCrashLoop := true }

/-! ## C8: state loading -/

/-- C8: loadState returns the persisted entry list when the state file
parses cleanly into a snapshot, the empty list when the file is absent,
and on parse failure renames the file to the backup path and returns
the empty list, so a daemon booting against a corrupt state file starts
with an empty registry and the corrupt file quarantined. -/
theorem C8_load_state (version : String) (l : List ProcessInfo)
    (hv : version ≠ "") :
    loadState (StateFileRead.parsed version (some l)) = (l, false) ∧
    loadState StateFileRead.absent = ([], false) ∧
    loadState StateFileRead.unreadable = ([], true) := by
  refine ⟨?_, rfl, rfl⟩
  simp [loadState, hv]

theorem C8_load_state_witness :
    loadState (StateFileRead.parsed "0.1.0" (some [])) = ([], false) ∧
    loadState StateFileRead.absent = ([], false) ∧
    loadState StateFileRead.unreadable = ([], true) :=
  C8_load_state "0.1.0" [] (by decide)

/-! ## C10: stopping an entry without a live child -/

/-- C10: stopProcess on an id that is present in the registry but has
no live child process reports Process not running and performs no
teardown: the manager state, and with it the registry entry, is
returned unchanged. -/
theorem C10_stop_not_running (st : ManagerState) (id : String)
    (e : ProcessInfo) (hreg : regGet st.registry id = some e)
    (hchild : st.children.contains id = false) :
    stopProcess st id = (st, some ("Process not running: " ++ id)) := by
  unfold stopProcess
  rw [hreg, hchild]
  simp

theorem C10_stop_not_running_witness :
    stopProcess { registry := [erroredDemoInfo], children := [] } "abc1234567"
      = ({ registry := [erroredDemoInfo], children := [] },
         some ("Process not running: " ++ "abc1234567")) :=
  C10_stop_not_running _ "abc1234567" erroredDemoInfo (by decide) (by decide)

/-! ## C9: clean exits -/

/-- C9 counterexample: on a clean exit (code 0, no signal) with four
recent crash times in the window, handleExit still appends the exit
time to the crash window, emits crash-loop and sets the loop flag, so
the crash window is not left unchanged and a crash-loop emission does
result from the clean exit. -/
theorem C9_counterexample :
    (handleExit fourCrashState DEFAULT_RESTART_POLICY 0 0 none).events
      = [RestartEvent.crashLoop 5] ∧
    (handleExit fourCrashState DEFAULT_RESTART_POLICY 0 0 none).state.crashes
      = [0, 0, 0, 0, 0] ∧
    fourCrashState.crashes = [0, 0, 0, 0] ∧
    (handleExit fourCrashState DEFAULT_RESTART_POLICY 0 0 none).state.inCrashLoop
      = true := by decide

/-- C9 (amended): a clean exit (code 0, no signal) is always denied,
never schedules a restart and never increments attempts; however the
exit time is first appended to the crash window, and crash-loop (or
max-restarts) is emitted when the updated window reaches the threshold
(or the attempt count has reached the maximum). -/
theorem C9_clean_exit (s : RestartState) (p : RestartPolicy) (now : Int) :
    (handleExit s p now 0 none).grant = false ∧
    (handleExit s p now 0 none).delay = none ∧
    (handleExit s p now 0 none).state.attempts = s.attempts ∧
    (handleExit s p now 0 none).state.crashes
      = (s.crashes ++ [now]).filter
          (fun t => decide (now - t < (CRASH_LOOP_WINDOW : Int) * 1000)) ∧
    (handleExit s p now 0 none).events
      = (if CRASH_LOOP_THRESHOLD ≤ ((s.crashes ++ [now]).filter
            (fun t => decide (now - t < (CRASH_LOOP_WINDOW : Int) * 1000))).length
         then [RestartEvent.crashLoop ((s.crashes ++ [now]).filter
            (fun t => decide (now - t < (CRASH_LOOP_WINDOW : Int) * 1000))).length]
         else if p.maxRestarts ≤ s.attempts
         then [RestartEvent.maxRestartsHit s.attempts]
         else []) := by
  by_cases h1 : CRASH_LOOP_THRESHOLD ≤ ((s.crashes ++ [now]).filter
      (fun t => decide (now - t < (CRASH_LOOP_WINDOW : Int) * 1000))).length
  · simp only [handleExit, if_pos h1]
    simp
  · by_cases h2 : p.maxRestarts ≤ s.attempts
    · simp only [handleExit, if_neg h1, if_pos h2]
      simp
    · simp only [handleExit, if_neg h1, if_neg h2,
        if_pos (show (0 : Int) = 0 ∧ (none : Option String) = none from ⟨rfl, rfl⟩)]
      simp

/-! ## C3: the pid/state invariant -/

/-- C3 counterexample: the entry that startProcess inserts into the
registry before spawning is in state starting with os pid 0, so a
status command issued at that observation point sees an entry whose
state is in the set starting, running, stopping while its pid is not
positive; the claimed biconditional fails. -/
theorem C3_counterexample :
    ¬ pidStateInvariant (mkStartingInfo "abc1234567" sampleConfig 0) := by
  decide

/-- C3 (amended): an entry is inserted in state starting with os pid 0;
the pid becomes positive only once the spawn succeeds and the entry
moves to running; and the exit handler sets the state to stopped or
errored without resetting the pid, so a stopped or errored entry keeps
the pid of its dead child. -/
theorem C3_pid_lifecycle (id : String) (cfg : ProcessConfig) (now : Int)
    (e : ProcessInfo) (childPid : Nat) (hpid : 0 < childPid)
    (code : Option Int) :
    ((mkStartingInfo id cfg now).pid = 0 ∧
     (mkStartingInfo id cfg now).status = ProcessStatus.starting) ∧
    (0 < (applySpawnSuccess e childPid).pid ∧
     (applySpawnSuccess e childPid).status = ProcessStatus.running) ∧
    ((applyExitStatus e code).pid = e.pid ∧
     ((applyExitStatus e code).status = ProcessStatus.stopped ∨
      (applyExitStatus e code).status = ProcessStatus.errored)) := by
  refine ⟨⟨rfl, rfl⟩, ⟨hpid, rfl⟩, rfl, ?_⟩
  unfold applyExitStatus
  by_cases h : code = some 0 <;> simp [h]

theorem C3_pid_lifecycle_witness :
    ((mkStartingInfo "abc1234567" sampleConfig 0).pid = 0 ∧
     (mkStartingInfo "abc1234567" sampleConfig 0).status = ProcessStatus.starting) ∧
    (0 < (applySpawnSuccess erroredDemoInfo 4242).pid ∧
     (applySpawnSuccess erroredDemoInfo 4242).status = ProcessStatus.running) ∧
    ((applyExitStatus erroredDemoInfo (some 1)).pid = erroredDemoInfo.pid ∧
     ((applyExitStatus erroredDemoInfo (some 1)).status = ProcessStatus.stopped ∨
      (applyExitStatus erroredDemoInfo (some 1)).status = ProcessStatus.errored)) :=
  C3_pid_lifecycle "abc1234567" sampleConfig 0 erroredDemoInfo 4242
    (by decide) (some 1)

/-! ## C4: restart reasons for threshold and file-change restarts -/

/-- C4 counterexample: a restart triggered by a memory
threshold-exceeded event goes through restartProcess, and the resulting
entry carries last restart reason manual, not memory, at this explicit
input (and likewise any file-change restart produces manual). -/
theorem C4_counterexample :
    (onThresholdExceeded memThresholdDemoEvent erroredDemoInfo
        (mkStartingInfo "xyz7654321" sampleConfig 5) 5).lastRestartReason
      = some "manual" ∧
    ¬ (onThresholdExceeded memThresholdDemoEvent erroredDemoInfo
        (mkStartingInfo "xyz7654321" sampleConfig 5) 5).lastRestartReason
      = some "memory" ∧
    memThresholdDemoEvent.type = ThresholdType.memory := by decide

/-- C4 (amended): restarts triggered by resource threshold-exceeded
events and by watcher file-change events both reuse restartProcess,
which always stamps the resulting entry with last restart reason
manual while incrementing the restart count; the reasons memory and
file-change are never assigned. -/
theorem C4_restart_reason (ev : ThresholdEvent)
    (oldInfo newStarted : ProcessInfo) (now : Int) :
    (onThresholdExceeded ev oldInfo newStarted now).lastRestartReason
      = some "manual" ∧
    (onWatchChange oldInfo newStarted now).lastRestartReason
      = some "manual" ∧
    (restartProcessInfo oldInfo newStarted now).restartCount
      = oldInfo.restartCount + 1 :=
  ⟨rfl, rfl, rfl⟩

/-! ## C7: log rotation -/

/-- C7: evaluating rotateLogs at the steady state with a live app.log
and five history files shows the rotation bug: the loop renames the
live log to app.log.2 (not .1), so the final rename of app.log to
app.log.1 throws, the outer catch aborts, and no fresh app.log stream
is opened; app.log.1 keeps its stale content, the newest history file
is deleted after being shifted, and only four files remain instead of
MAX_FILES. -/
theorem C7_rotation_bug :
    (rotateLogs "app.log" 999 rotateDemoFs).streamReopened = false ∧
    fsGet (rotateLogs "app.log" 999 rotateDemoFs).fs "app.log" = none ∧
    fsGet (rotateLogs "app.log" 999 rotateDemoFs).fs "app.log.1" = some 1 ∧
    fsGet (rotateLogs "app.log" 999 rotateDemoFs).fs "app.log.2" = some 100 ∧
    fsGet (rotateLogs "app.log" 999 rotateDemoFs).fs "app.log.5" = none ∧
    (rotateLogs "app.log" 999 rotateDemoFs).fs.length = 4 := by decide

/-! ## C6: the 80 percent memory advisory -/

lemma cpuCheck_no_memoryWarning (limit : Option ℚ) (count : Nat)
    (avg c0 l0 p0 : ℚ) :
    MonitorEvent.memoryWarning c0 l0 p0 ∉ (cpuCheck limit count avg).2 := by
  cases limit with
  | none => simp [cpuCheck]
  | some lim =>
    by_cases h1 : lim ≠ 0 ∧ lim ≤ avg
    · by_cases h2 : CPU_CHECK_CONSECUTIVE ≤ count + 1
      · simp [cpuCheck, h1, h2]
      · simp [cpuCheck, h1, h2]
    · simp [cpuCheck, h1]

/-- C6 counterexample: with a 1000 byte limit, a sample of 900 bytes is
above 80 percent of the limit yet below the limit itself, and the poll
emits no memory-warning for it: the advisory check sits inside the
at-or-above-limit branch. -/
theorem C6_counterexample :
    (1000 : ℚ) * MEMORY_WARNING_THRESHOLD ≤ 900 ∧ (900 : ℚ) < 1000 ∧
    (pollStep (startMonitoring 7 (some 1000) none) 0 900 0).2
      = [MonitorEvent.metricsEv 0 900] := by
  refine ⟨by norm_num [MEMORY_WARNING_THRESHOLD], by norm_num, ?_⟩
  have hmem : memCheck (some 1000) 0 900 = (0, []) := by
    simp only [memCheck]
    rw [if_neg (show ¬ (1000 : ℚ) = 0 by norm_num),
        if_neg (show ¬ (1000 : ℚ) ≤ 900 by norm_num)]
  have hav : listAvg (pushTrim CPU_ROLLING_AVERAGE_SAMPLES [] 0) = 0 := by
    norm_num [listAvg, pushTrim, CPU_ROLLING_AVERAGE_SAMPLES]
  have hevents : (pollStep (startMonitoring 7 (some 1000) none) 0 900 0).2
      = MonitorEvent.metricsEv
          (listAvg (pushTrim CPU_ROLLING_AVERAGE_SAMPLES [] 0)) 900
        :: ((memCheck (some 1000) 0 900).2
            ++ (cpuCheck none 0
                (listAvg (pushTrim CPU_ROLLING_AVERAGE_SAMPLES [] 0))).2) := rfl
  rw [hevents, hmem, hav]
  simp [cpuCheck]

/-- C6 (amended): for a monitored entry with a configured positive
memory limit, the advisory memory-warning is emitted for a sample
exactly when the measured RSS is at or above the full limit; samples
between 80 percent of the limit and the limit emit nothing, because
the 80 percent check only runs inside the at-or-above-limit branch,
where it is always satisfied. -/
theorem C6_memory_warning (s : MonitorState) (lim cpu memory : ℚ)
    (now : Int) (hlim : s.memoryLimit = some lim) (hpos : 0 < lim) :
    (MonitorEvent.memoryWarning memory lim (memory / lim * 100)
        ∈ (pollStep s cpu memory now).2) ↔ lim ≤ memory := by
  have h0 : ¬ lim = 0 := ne_of_gt hpos
  have hevents : (pollStep s cpu memory now).2
      = MonitorEvent.metricsEv
          (listAvg (pushTrim CPU_ROLLING_AVERAGE_SAMPLES s.cpuSamples cpu))
          memory
        :: ((memCheck s.memoryLimit s.memoryExceededCount memory).2
            ++ (cpuCheck s.cpuLimit s.cpuExceededCount
                (listAvg (pushTrim CPU_ROLLING_AVERAGE_SAMPLES
                  s.cpuSamples cpu))).2) := rfl
  rw [hevents, hlim]
  constructor
  · intro h
    rcases List.mem_cons.mp h with h | h
    · exact absurd h (by simp)
    rcases List.mem_append.mp h with h | h
    · by_cases hm : lim ≤ memory
      · exact hm
      · simp [memCheck, h0, hm] at h
    · exact absurd h (cpuCheck_no_memoryWarning _ _ _ _ _ _)
  · intro hm
    apply List.mem_cons_of_mem
    apply List.mem_append_left
    have hw : lim * MEMORY_WARNING_THRESHOLD ≤ memory := by
      calc lim * MEMORY_WARNING_THRESHOLD ≤ lim * 1 := by
            apply mul_le_mul_of_nonneg_left _ (le_of_lt hpos)
            norm_num [MEMORY_WARNING_THRESHOLD]
        _ = lim := mul_one lim
        _ ≤ memory := hm
    by_cases hc : MEMORY_CHECK_CONSECUTIVE ≤ s.memoryExceededCount + 1
    · simp [memCheck, h0, hm, hc, hw]
    · simp [memCheck, h0, hm, hc, hw]

theorem C6_memory_warning_witness :
    (0 : ℚ) < 1000 ∧
    (MonitorEvent.memoryWarning 1500 1000 (1500 / 1000 * 100)
        ∈ (pollStep (startMonitoring 7 (some 1000) none) 0 1500 0).2) :=
  ⟨by norm_num,
   (C6_memory_warning (startMonitoring 7 (some 1000) none) 1000 0 1500 0
      rfl (by norm_num)).mpr (by norm_num)⟩

/-! ## C2: exponential backoff on granted restarts -/

lemma runExitTrace_results_cons (p : RestartPolicy) (s : RestartState)
    (c : ExitCall) (rest : List ExitCall) :
    (runExitTrace p s (c :: rest)).2
      = handleExit s p c.1 c.2.1 c.2.2
        :: (runExitTrace p (handleExit s p c.1 c.2.1 c.2.2).state rest).2 := rfl

lemma runExitTrace_state_cons (p : RestartPolicy) (s : RestartState)
    (c : ExitCall) (rest : List ExitCall) :
    (runExitTrace p s (c :: rest)).1
      = (runExitTrace p (handleExit s p c.1 c.2.1 c.2.2).state rest).1 := rfl

/-- A granted handleExit call slept for the backoff delay computed from
the attempt count before the call and incremented the attempt count. -/
lemma handleExit_grant (s : RestartState) (p : RestartPolicy) (now : Int)
    (c : Int) (sig : Option String)
    (h : (handleExit s p now c sig).grant = true) :
    (handleExit s p now c sig).delay
        = some (calculateBackoffDelay s.attempts p.minDelay p.maxDelay) ∧
    (handleExit s p now c sig).state.attempts = s.attempts + 1 := by
  by_cases h1 : CRASH_LOOP_THRESHOLD ≤ ((s.crashes ++ [now]).filter
      (fun t => decide (now - t < (CRASH_LOOP_WINDOW : Int) * 1000))).length
  · simp only [handleExit, if_pos h1] at h
    exact absurd h (by simp)
  · by_cases h2 : p.maxRestarts ≤ s.attempts
    · simp only [handleExit, if_neg h1, if_pos h2] at h
      exact absurd h (by simp)
    · by_cases h3 : c = 0 ∧ sig = none
      · simp only [handleExit, if_neg h1, if_neg h2, if_pos h3] at h
        exact absurd h (by simp)
      · simp only [handleExit, if_neg h1, if_neg h2, if_neg h3]
        simp

/-- Along a trace in which every call was granted, the i-th delay is
the backoff for attempt count start plus i. -/
lemma runExitTrace_all_grant_delay (p : RestartPolicy) :
    ∀ (calls : List ExitCall) (s : RestartState),
      (∀ r ∈ (runExitTrace p s calls).2, r.grant = true) →
      ∀ i, ∀ h : i < (runExitTrace p s calls).2.length,
        ((runExitTrace p s calls).2.get ⟨i, h⟩).delay
          = some (min (p.minDelay * 2 ^ (s.attempts + i)) p.maxDelay) := by
  intro calls
  induction calls with
  | nil =>
    intro s hall i h
    simp [runExitTrace] at h
  | cons c rest ih =>
    intro s hall i h
    have hg : (handleExit s p c.1 c.2.1 c.2.2).grant = true := by
      apply hall
      rw [runExitTrace_results_cons]
      exact List.mem_cons_self _ _
    obtain ⟨hd, ha⟩ := handleExit_grant s p c.1 c.2.1 c.2.2 hg
    cases i with
    | zero =>
      simp only [runExitTrace_results_cons, List.get]
      rw [hd]
      simp [calculateBackoffDelay]
    | succ j =>
      have hall2 : ∀ r ∈ (runExitTrace p (handleExit s p c.1 c.2.1 c.2.2).state
          rest).2, r.grant = true := by
        intro r hr
        apply hall
        rw [runExitTrace_results_cons]
        exact List.mem_cons_of_mem _ hr
      have hlen : j < ((runExitTrace p
          (handleExit s p c.1 c.2.1 c.2.2).state rest).2).length := by
        have := h
        rw [runExitTrace_results_cons] at this
        simpa using this
      have := ih (handleExit s p c.1 c.2.1 c.2.2).state hall2 j hlen
      rw [ha] at this
      have harith : s.attempts + 1 + j = s.attempts + (j + 1) := by omega
      rw [harith] at this
      simp only [runExitTrace_results_cons, List.get]
      exact this

/-- C2: every granted restart is scheduled after the delay
min(min_delay times 2 to the attempts, max_delay) computed from the
attempt count before the grant, the attempt count is incremented on
each grant, and consequently along any trace of exits from
registration in which every call was granted, the k-th granted restart
(index i = k minus 1) is scheduled after min(min_delay times 2 to the
(k minus 1), max_delay) milliseconds. -/
theorem C2_backoff (p : RestartPolicy) (calls : List ExitCall)
    (hall : ∀ r ∈ (runExitTrace p initialRestartState calls).2, r.grant = true)
    (i : Nat) (hi : i < (runExitTrace p initialRestartState calls).2.length)
    (s : RestartState) (now c : Int) (sig : Option String)
    (hg : (handleExit s p now c sig).grant = true) :
    ((runExitTrace p initialRestartState calls).2.get ⟨i, hi⟩).delay
      = some (min (p.minDelay * 2 ^ i) p.maxDelay) ∧
    (handleExit s p now c sig).delay
      = some (calculateBackoffDelay s.attempts p.minDelay p.maxDelay) ∧
    (handleExit s p now c sig).state.attempts = s.attempts + 1 := by
  refine ⟨?_, handleExit_grant s p now c sig hg⟩
  have := runExitTrace_all_grant_delay p calls initialRestartState hall i hi
  simpa [initialRestartState] using this

theorem C2_backoff_witness :
    ((runExitTrace DEFAULT_RESTART_POLICY initialRestartState
        [(0, 1, none), (10, 1, none), (20, 1, none)]).2.get
        ⟨2, by decide⟩).delay
      = some (min (DEFAULT_RESTART_POLICY.minDelay * 2 ^ 2)
          DEFAULT_RESTART_POLICY.maxDelay) :=
  (C2_backoff DEFAULT_RESTART_POLICY
    [(0, 1, none), (10, 1, none), (20, 1, none)] (by decide) 2 (by decide)
    initialRestartState 0 1 none (by decide)).1

/-! ## C1: the crash-loop cut-off -/

lemma crash_window_ms : (CRASH_LOOP_WINDOW : Int) * 1000 = 60000 := by
  norm_num [CRASH_LOOP_WINDOW]

/-- When every element of the window is within 60 seconds of now, the
pruning filter keeps everything. -/
lemma filter_window_all (now : Int) (l : List Int)
    (h : ∀ t ∈ l, now - t < 60000) :
    l.filter (fun t => decide (now - t < (CRASH_LOOP_WINDOW : Int) * 1000)) = l := by
  rw [List.filter_eq_self]
  intro a ha
  rw [crash_window_ms]
  exact decide_eq_true (h a ha)

/-- The crash-loop branch of handleExit: whenever the pruned window
after recording the current crash holds at least the threshold, the
loop flag is set, crash-loop is the only emission, and the restart is
denied with no delay. -/
lemma handleExit_crashLoop (s : RestartState) (p : RestartPolicy) (now : Int)
    (c : Int) (sig : Option String)
    (h : CRASH_LOOP_THRESHOLD ≤ ((s.crashes ++ [now]).filter
        (fun t => decide (now - t < (CRASH_LOOP_WINDOW : Int) * 1000))).length) :
    (handleExit s p now c sig).state.inCrashLoop = true ∧
    (handleExit s p now c sig).events
      = [RestartEvent.crashLoop ((s.crashes ++ [now]).filter
          (fun t => decide (now - t < (CRASH_LOOP_WINDOW : Int) * 1000))).length] ∧
    (handleExit s p now c sig).grant = false ∧
    (handleExit s p now c sig).delay = none := by
  simp only [handleExit, if_pos h]
  simp

lemma runExitTrace_state_step (p : RestartPolicy) (s : RestartState)
    (now code : Int) (sig : Option String) (rest : List ExitCall) :
    (runExitTrace p s ((now, code, sig) :: rest)).1
      = (runExitTrace p (handleExit s p now code sig).state rest).1 := rfl

/-- C1: once the 60 second crash window holds at least
CRASH_LOOP_THRESHOLD crash times after recording the current crash,
handleExit sets the loop flag, emits crash-loop and denies the restart
(first conjunct); consequently, after five non-zero exits within the
window, the next (sixth) crash is answered with a crash-loop emission
and a denial with no scheduled delay (second conjunct); and on any
denied non-zero exit the manager leaves the entry in status errored,
since the respawn branch runs only on a granted result (third
conjunct). -/
theorem C1_crash_loop (s : RestartState) (p : RestartPolicy) (now : Int)
    (c : Int) (sig : Option String) (e : ProcessInfo) (rs : RestartState)
    (t1 t2 t3 t4 t5 t6 : Int)
    (h12 : t1 ≤ t2) (h23 : t2 ≤ t3) (h34 : t3 ≤ t4) (h45 : t4 ≤ t5)
    (h56 : t5 ≤ t6) (hwin : t6 - t1 < 60000) :
    (CRASH_LOOP_THRESHOLD ≤ ((s.crashes ++ [now]).filter
        (fun t => decide (now - t < (CRASH_LOOP_WINDOW : Int) * 1000))).length →
      (handleExit s p now c sig).state.inCrashLoop = true ∧
      (handleExit s p now c sig).events
        = [RestartEvent.crashLoop ((s.crashes ++ [now]).filter
            (fun t => decide (now - t < (CRASH_LOOP_WINDOW : Int) * 1000))).length] ∧
      (handleExit s p now c sig).grant = false ∧
      (handleExit s p now c sig).delay = none) ∧
    ((handleExit (runExitTrace DEFAULT_RESTART_POLICY initialRestartState
          [(t1, 1, none), (t2, 1, none), (t3, 1, none), (t4, 1, none),
           (t5, 1, none)]).1 DEFAULT_RESTART_POLICY t6 1 none).events
        = [RestartEvent.crashLoop 6] ∧
     (handleExit (runExitTrace DEFAULT_RESTART_POLICY initialRestartState
          [(t1, 1, none), (t2, 1, none), (t3, 1, none), (t4, 1, none),
           (t5, 1, none)]).1 DEFAULT_RESTART_POLICY t6 1 none).grant = false ∧
     (handleExit (runExitTrace DEFAULT_RESTART_POLICY initialRestartState
          [(t1, 1, none), (t2, 1, none), (t3, 1, none), (t4, 1, none),
           (t5, 1, none)]).1 DEFAULT_RESTART_POLICY t6 1 none).state.inCrashLoop
        = true ∧
     (handleExit (runExitTrace DEFAULT_RESTART_POLICY initialRestartState
          [(t1, 1, none), (t2, 1, none), (t3, 1, none), (t4, 1, none),
           (t5, 1, none)]).1 DEFAULT_RESTART_POLICY t6 1 none).delay = none) ∧
    (∀ code : Option Int, code ≠ some 0 →
      (handleChildExit e rs p now code sig).1.status = ProcessStatus.errored) := by
  refine ⟨fun h => handleExit_crashLoop s p now c sig h, ?_, ?_⟩
  · have st1 : (handleExit initialRestartState DEFAULT_RESTART_POLICY t1 1
        none).state = loopState1 t1 := by
      have hf : (initialRestartState.crashes ++ [t1]).filter
          (fun t => decide (t1 - t < (CRASH_LOOP_WINDOW : Int) * 1000))
          = [t1] := by
        apply filter_window_all
        intro t ht
        simp [initialRestartState] at ht
        omega
      simp only [handleExit, hf]
      rw [if_neg (by norm_num [CRASH_LOOP_THRESHOLD]),
          if_neg (by norm_num [initialRestartState, DEFAULT_RESTART_POLICY, initialRestartState]), if_neg (by simp)]
      rfl
    have st2 : (handleExit (loopState1 t1) DEFAULT_RESTART_POLICY t2 1
        none).state = loopState2 t1 t2 := by
      have hf : ((loopState1 t1).crashes ++ [t2]).filter
          (fun t => decide (t2 - t < (CRASH_LOOP_WINDOW : Int) * 1000))
          = [t1, t2] := by
        apply filter_window_all
        intro t ht
        simp [loopState1] at ht
        rcases ht with rfl | rfl <;> omega
      simp only [handleExit, hf]
      rw [if_neg (by norm_num [CRASH_LOOP_THRESHOLD]),
          if_neg (by norm_num [loopState1, DEFAULT_RESTART_POLICY, initialRestartState]), if_neg (by simp)]
      rfl
    have st3 : (handleExit (loopState2 t1 t2) DEFAULT_RESTART_POLICY t3 1
        none).state = loopState3 t1 t2 t3 := by
      have hf : ((loopState2 t1 t2).crashes ++ [t3]).filter
          (fun t => decide (t3 - t < (CRASH_LOOP_WINDOW : Int) * 1000))
          = [t1, t2, t3] := by
        apply filter_window_all
        intro t ht
        simp [loopState2] at ht
        rcases ht with rfl | rfl | rfl <;> omega
      simp only [handleExit, hf]
      rw [if_neg (by norm_num [CRASH_LOOP_THRESHOLD]),
          if_neg (by norm_num [loopState2, DEFAULT_RESTART_POLICY, initialRestartState]), if_neg (by simp)]
      rfl
    have st4 : (handleExit (loopState3 t1 t2 t3) DEFAULT_RESTART_POLICY t4 1
        none).state = loopState4 t1 t2 t3 t4 := by
      have hf : ((loopState3 t1 t2 t3).crashes ++ [t4]).filter
          (fun t => decide (t4 - t < (CRASH_LOOP_WINDOW : Int) * 1000))
          = [t1, t2, t3, t4] := by
        apply filter_window_all
        intro t ht
        simp [loopState3] at ht
        rcases ht with rfl | rfl | rfl | rfl <;> omega
      simp only [handleExit, hf]
      rw [if_neg (by norm_num [CRASH_LOOP_THRESHOLD]),
          if_neg (by norm_num [loopState3, DEFAULT_RESTART_POLICY, initialRestartState]), if_neg (by simp)]
      rfl
    have st5 : (handleExit (loopState4 t1 t2 t3 t4) DEFAULT_RESTART_POLICY t5 1
        none).state = loopState5 t1 t2 t3 t4 t5 := by
      have hf : ((loopState4 t1 t2 t3 t4).crashes ++ [t5]).filter
          (fun t => decide (t5 - t < (CRASH_LOOP_WINDOW : Int) * 1000))
          = [t1, t2, t3, t4, t5] := by
        apply filter_window_all
        intro t ht
        simp [loopState4] at ht
        rcases ht with rfl | rfl | rfl | rfl | rfl <;> omega
      simp only [handleExit, hf]
      rw [if_pos (by norm_num [CRASH_LOOP_THRESHOLD])]
      rfl
    have hs5 : (runExitTrace DEFAULT_RESTART_POLICY initialRestartState
        [(t1, 1, none), (t2, 1, none), (t3, 1, none), (t4, 1, none),
         (t5, 1, none)]).1 = loopState5 t1 t2 t3 t4 t5 := by
      rw [runExitTrace_state_step, st1, runExitTrace_state_step, st2,
          runExitTrace_state_step, st3, runExitTrace_state_step, st4,
          runExitTrace_state_step, st5]
      rfl
    rw [hs5]
    have hf6 : ((loopState5 t1 t2 t3 t4 t5).crashes ++ [t6]).filter
        (fun t => decide (t6 - t < (CRASH_LOOP_WINDOW : Int) * 1000))
        = [t1, t2, t3, t4, t5, t6] := by
      apply filter_window_all
      intro t ht
      simp [loopState5] at ht
      rcases ht with rfl | rfl | rfl | rfl | rfl | rfl <;> omega
    obtain ⟨hA, hB, hC, hD⟩ := handleExit_crashLoop (loopState5 t1 t2 t3 t4 t5)
      DEFAULT_RESTART_POLICY t6 1 none
      (by rw [hf6]; norm_num [CRASH_LOOP_THRESHOLD])
    rw [hf6] at hB
    exact ⟨by simpa using hB, hC, hA, hD⟩
  · intro code hc
    unfold handleChildExit applyExitStatus
    simp [hc]

theorem C1_crash_loop_witness :
    (handleExit fourCrashState DEFAULT_RESTART_POLICY 0 1 none).grant
      = false ∧
    (handleExit (runExitTrace DEFAULT_RESTART_POLICY initialRestartState
        [(0, 1, none), (1, 1, none), (2, 1, none), (3, 1, none),
         (4, 1, none)]).1 DEFAULT_RESTART_POLICY 5 1 none).events
      = [RestartEvent.crashLoop 6] ∧
    (handleChildExit erroredDemoInfo initialRestartState
        DEFAULT_RESTART_POLICY 0 (some 1) none).1.status
      = ProcessStatus.errored := by
  have h := C1_crash_loop fourCrashState DEFAULT_RESTART_POLICY 0 1 none
    erroredDemoInfo initialRestartState 0 1 2 3 4 5
    (by decide) (by decide) (by decide) (by decide) (by decide) (by decide)
  exact ⟨(h.1 (by decide)).2.2.1, h.2.1.1, h.2.2 (some 1) (by decide)⟩

/-! ## C5: threshold hysteresis -/

lemma pollStep_fst (s : MonitorState) (c m : ℚ) (t : Int) :
    (pollStep s c m t).1
      = { s with
          history := pushTrimMetrics RESOURCE_HISTORY_SIZE s.history
            { cpu := c, memory := m, timestamp := t },
          cpuSamples := pushTrim CPU_ROLLING_AVERAGE_SAMPLES s.cpuSamples c,
          memoryExceededCount :=
            (memCheck s.memoryLimit s.memoryExceededCount m).1,
          cpuExceededCount := (cpuCheck s.cpuLimit s.cpuExceededCount
            (listAvg (pushTrim CPU_ROLLING_AVERAGE_SAMPLES
              s.cpuSamples c))).1 } := rfl

lemma pollStep_snd (s : MonitorState) (c m : ℚ) (t : Int) :
    (pollStep s c m t).2
      = MonitorEvent.metricsEv
          (listAvg (pushTrim CPU_ROLLING_AVERAGE_SAMPLES s.cpuSamples c)) m
        :: ((memCheck s.memoryLimit s.memoryExceededCount m).2
            ++ (cpuCheck s.cpuLimit s.cpuExceededCount
                (listAvg (pushTrim CPU_ROLLING_AVERAGE_SAMPLES
                  s.cpuSamples c))).2) := rfl

lemma monitorRun_snd_cons (s : MonitorState) (x : Sample)
    (rest : List Sample) :
    (monitorRun s (x :: rest)).2
      = (pollStep s x.1 x.2.1 x.2.2).2
        ++ (monitorRun (pollStep s x.1 x.2.1 x.2.2).1 rest).2 := rfl

lemma rollAvgs_cons (w : List ℚ) (x : Sample) (rest : List Sample) :
    rollAvgs w (x :: rest)
      = listAvg (pushTrim CPU_ROLLING_AVERAGE_SAMPLES w x.1)
        :: rollAvgs (pushTrim CPU_ROLLING_AVERAGE_SAMPLES w x.1) rest := rfl

lemma thresholdMemory_notin_cpuCheck (limit : Option ℚ) (count : Nat)
    (avg c0 l0 : ℚ) :
    MonitorEvent.thresholdMemory c0 l0 ∉ (cpuCheck limit count avg).2 := by
  cases limit with
  | none => simp [cpuCheck]
  | some lim =>
    by_cases h1 : lim ≠ 0 ∧ lim ≤ avg
    · by_cases h2 : CPU_CHECK_CONSECUTIVE ≤ count + 1
      · simp [cpuCheck, h1, h2]
      · simp [cpuCheck, h1, h2]
    · simp [cpuCheck, h1]

lemma thresholdCpu_notin_memCheck (limit : Option ℚ) (count : Nat)
    (m c0 l0 : ℚ) :
    MonitorEvent.thresholdCpu c0 l0 ∉ (memCheck limit count m).2 := by
  cases limit with
  | none => simp [memCheck]
  | some lim =>
    by_cases h0 : lim = 0
    · simp [memCheck, h0]
    · by_cases hm : lim ≤ m
      · by_cases hc : MEMORY_CHECK_CONSECUTIVE ≤ count + 1
        · by_cases hw : lim * MEMORY_WARNING_THRESHOLD ≤ m
          · simp [memCheck, h0, hm, hc, hw]
          · simp [memCheck, h0, hm, hc, hw]
        · by_cases hw : lim * MEMORY_WARNING_THRESHOLD ≤ m
          · simp [memCheck, h0, hm, hc, hw]
          · simp [memCheck, h0, hm, hc, hw]
      · simp [memCheck, h0, hm]

lemma pollStep_thresholdMemory_mem (s : MonitorState) (c m : ℚ) (t : Int)
    (c0 l0 : ℚ)
    (h : MonitorEvent.thresholdMemory c0 l0 ∈ (pollStep s c m t).2) :
    MonitorEvent.thresholdMemory c0 l0
      ∈ (memCheck s.memoryLimit s.memoryExceededCount m).2 := by
  rw [pollStep_snd] at h
  rcases List.mem_cons.mp h with heq | h2
  · exact absurd heq (by simp)
  rcases List.mem_append.mp h2 with hm | hcpu
  · exact hm
  · exact absurd hcpu (thresholdMemory_notin_cpuCheck _ _ _ _ _)

lemma pollStep_thresholdCpu_mem (s : MonitorState) (c m : ℚ) (t : Int)
    (c0 l0 : ℚ)
    (h : MonitorEvent.thresholdCpu c0 l0 ∈ (pollStep s c m t).2) :
    MonitorEvent.thresholdCpu c0 l0
      ∈ (cpuCheck s.cpuLimit s.cpuExceededCount
          (listAvg (pushTrim CPU_ROLLING_AVERAGE_SAMPLES
            s.cpuSamples c))).2 := by
  rw [pollStep_snd] at h
  rcases List.mem_cons.mp h with heq | h2
  · exact absurd heq (by simp)
  rcases List.mem_append.mp h2 with hm | hcpu
  · exact absurd hm (thresholdCpu_notin_memCheck _ _ _ _ _)
  · exact hcpu

lemma memCheck_threshold_inv (lim : ℚ) (count : Nat) (m c0 l0 : ℚ)
    (h : MonitorEvent.thresholdMemory c0 l0
        ∈ (memCheck (some lim) count m).2) :
    lim ≤ m ∧ MEMORY_CHECK_CONSECUTIVE ≤ count + 1 := by
  by_cases h0 : lim = 0
  · simp [memCheck, h0] at h
  by_cases hm : lim ≤ m
  · by_cases hc : MEMORY_CHECK_CONSECUTIVE ≤ count + 1
    · exact ⟨hm, hc⟩
    · exfalso
      by_cases hw : lim * MEMORY_WARNING_THRESHOLD ≤ m
      · simp [memCheck, h0, hm, hc, hw] at h
      · simp [memCheck, h0, hm, hc, hw] at h
  · simp [memCheck, h0, hm] at h

lemma memCheck_threshold_reset (lim : ℚ) (count : Nat) (m c0 l0 : ℚ)
    (h : MonitorEvent.thresholdMemory c0 l0
        ∈ (memCheck (some lim) count m).2) :
    (memCheck (some lim) count m).1 = 0 := by
  obtain ⟨hm, hc⟩ := memCheck_threshold_inv lim count m c0 l0 h
  by_cases h0 : lim = 0
  · simp [memCheck, h0] at h
  · simp [memCheck, h0, hm, hc]

lemma cpuCheck_threshold_inv (lim : ℚ) (count : Nat) (avg c0 l0 : ℚ)
    (h : MonitorEvent.thresholdCpu c0 l0
        ∈ (cpuCheck (some lim) count avg).2) :
    (lim ≠ 0 ∧ lim ≤ avg) ∧ CPU_CHECK_CONSECUTIVE ≤ count + 1 := by
  by_cases h1 : lim ≠ 0 ∧ lim ≤ avg
  · by_cases hc : CPU_CHECK_CONSECUTIVE ≤ count + 1
    · exact ⟨h1, hc⟩
    · simp [cpuCheck, h1, hc] at h
  · simp [cpuCheck, h1] at h

lemma cpuCheck_threshold_reset (lim : ℚ) (count : Nat) (avg c0 l0 : ℚ)
    (h : MonitorEvent.thresholdCpu c0 l0
        ∈ (cpuCheck (some lim) count avg).2) :
    (cpuCheck (some lim) count avg).1 = 0 := by
  obtain ⟨h1, hc⟩ := cpuCheck_threshold_inv lim count avg c0 l0 h
  simp [cpuCheck, h1, hc]

lemma memCheck_count_le (limit : Option ℚ) (count : Nat) (m : ℚ) :
    (memCheck limit count m).1 ≤ count + 1 := by
  cases limit with
  | none => simp [memCheck]
  | some lim =>
    by_cases h0 : lim = 0
    · simp [memCheck, h0]
    · by_cases hm : lim ≤ m
      · by_cases hc : MEMORY_CHECK_CONSECUTIVE ≤ count + 1
        · simp [memCheck, h0, hm, hc]
        · simp [memCheck, h0, hm, hc]
      · simp [memCheck, h0, hm]

lemma cpuCheck_count_le (limit : Option ℚ) (count : Nat) (avg : ℚ) :
    (cpuCheck limit count avg).1 ≤ count + 1 := by
  cases limit with
  | none => simp [cpuCheck]
  | some lim =>
    by_cases h1 : lim ≠ 0 ∧ lim ≤ avg
    · by_cases hc : CPU_CHECK_CONSECUTIVE ≤ count + 1
      · simp [cpuCheck, h1, hc]
      · simp [cpuCheck, h1, hc]
    · simp [cpuCheck, h1]

lemma memCheck_count_below (lim : ℚ) (count : Nat) (m : ℚ)
    (h0 : ¬ lim = 0) (hm : ¬ lim ≤ m) :
    (memCheck (some lim) count m).1 = 0 := by
  simp [memCheck, h0, hm]

lemma cpuCheck_count_miss (lim : ℚ) (count : Nat) (avg : ℚ)
    (h : ¬ (lim ≠ 0 ∧ lim ≤ avg)) :
    (cpuCheck (some lim) count avg).1 = 0 := by
  simp [cpuCheck, h]

lemma maxRunFrom_cons (cur : Nat) (b : Bool) (bs : List Bool) :
    maxRunFrom cur (b :: bs)
      = if b then maxRunFrom (cur + 1) bs
        else max cur (maxRunFrom 0 bs) := rfl

lemma le_maxRunFrom (cur : Nat) (bs : List Bool) : cur ≤ maxRunFrom cur bs := by
  induction bs generalizing cur with
  | nil => simp [maxRunFrom]
  | cons b bs ih =>
    cases b
    · rw [maxRunFrom_cons]
      simp
    · rw [maxRunFrom_cons]
      simp only [if_pos rfl]
      exact le_trans (Nat.le_succ cur) (ih (cur + 1))

/-- The memory hysteresis counter never exceeds the length of the
current trailing run of at-or-above-limit samples, so a
threshold-exceeded emission of type memory requires somewhere in the
trace a run of at least MEMORY_CHECK_CONSECUTIVE consecutive samples
at or above the limit. -/
lemma monitorRun_memory_threshold (ml : ℚ) (hml : ml ≠ 0) :
    ∀ (samples : List Sample) (s : MonitorState) (cur : Nat),
      s.memoryLimit = some ml →
      s.memoryExceededCount ≤ cur →
      ∀ c0 l0, MonitorEvent.thresholdMemory c0 l0 ∈ (monitorRun s samples).2 →
        MEMORY_CHECK_CONSECUTIVE ≤ maxRunFrom cur
          (samples.map (fun x => decide (ml ≤ x.2.1))) := by
  intro samples
  induction samples with
  | nil =>
    intro s cur hlim hcnt c0 l0 h
    simp [monitorRun] at h
  | cons x rest ih =>
    intro s cur hlim hcnt c0 l0 h
    rw [monitorRun_snd_cons] at h
    have hlim2 : (pollStep s x.1 x.2.1 x.2.2).1.memoryLimit = some ml := hlim
    rw [List.map_cons, maxRunFrom_cons]
    rcases List.mem_append.mp h with hstep | hrest
    · have hm := pollStep_thresholdMemory_mem s x.1 x.2.1 x.2.2 c0 l0 hstep
      rw [hlim] at hm
      obtain ⟨hge, hcntge⟩ :=
        memCheck_threshold_inv ml s.memoryExceededCount x.2.1 c0 l0 hm
      rw [if_pos (decide_eq_true hge)]
      calc MEMORY_CHECK_CONSECUTIVE ≤ s.memoryExceededCount + 1 := hcntge
        _ ≤ cur + 1 := by omega
        _ ≤ maxRunFrom (cur + 1) _ := le_maxRunFrom _ _
    · by_cases hge : ml ≤ x.2.1
      · have hcnt2 : (pollStep s x.1 x.2.1 x.2.2).1.memoryExceededCount
            ≤ cur + 1 := by
          rw [pollStep_fst]
          calc (memCheck s.memoryLimit s.memoryExceededCount x.2.1).1
              ≤ s.memoryExceededCount + 1 := memCheck_count_le _ _ _
            _ ≤ cur + 1 := by omega
        have := ih (pollStep s x.1 x.2.1 x.2.2).1 (cur + 1) hlim2 hcnt2
          c0 l0 hrest
        rw [if_pos (decide_eq_true hge)]
        exact this
      · have hcnt2 : (pollStep s x.1 x.2.1 x.2.2).1.memoryExceededCount
            ≤ 0 := by
          rw [pollStep_fst]
          simp only [hlim]
          rw [memCheck_count_below ml _ _ hml hge]
        have := ih (pollStep s x.1 x.2.1 x.2.2).1 0 hlim2 hcnt2 c0 l0 hrest
        rw [if_neg (by simpa using hge)]
        exact le_trans this (Nat.le_max_right _ _)

/-- The cpu hysteresis counter never exceeds the length of the current
trailing run of polls whose three-sample rolling average is at or
above the limit, so a threshold-exceeded emission of type cpu requires
a run of at least CPU_CHECK_CONSECUTIVE consecutive such polls. -/
lemma monitorRun_cpu_threshold (cl : ℚ) :
    ∀ (samples : List Sample) (s : MonitorState) (cur : Nat),
      s.cpuLimit = some cl →
      s.cpuExceededCount ≤ cur →
      ∀ c0 l0, MonitorEvent.thresholdCpu c0 l0 ∈ (monitorRun s samples).2 →
        CPU_CHECK_CONSECUTIVE ≤ maxRunFrom cur
          ((rollAvgs s.cpuSamples samples).map (fun a => decide (cl ≤ a))) := by
  intro samples
  induction samples with
  | nil =>
    intro s cur hlim hcnt c0 l0 h
    simp [monitorRun] at h
  | cons x rest ih =>
    intro s cur hlim hcnt c0 l0 h
    rw [monitorRun_snd_cons] at h
    have hlim2 : (pollStep s x.1 x.2.1 x.2.2).1.cpuLimit = some cl := hlim
    have hwin : (pollStep s x.1 x.2.1 x.2.2).1.cpuSamples
        = pushTrim CPU_ROLLING_AVERAGE_SAMPLES s.cpuSamples x.1 := rfl
    rw [rollAvgs_cons, List.map_cons, maxRunFrom_cons]
    rcases List.mem_append.mp h with hstep | hrest
    · have hm := pollStep_thresholdCpu_mem s x.1 x.2.1 x.2.2 c0 l0 hstep
      rw [hlim] at hm
      obtain ⟨⟨hne, hge⟩, hcntge⟩ :=
        cpuCheck_threshold_inv cl s.cpuExceededCount _ c0 l0 hm
      rw [if_pos (decide_eq_true hge)]
      calc CPU_CHECK_CONSECUTIVE ≤ s.cpuExceededCount + 1 := hcntge
        _ ≤ cur + 1 := by omega
        _ ≤ maxRunFrom (cur + 1) _ := le_maxRunFrom _ _
    · by_cases hge : cl ≤ listAvg (pushTrim CPU_ROLLING_AVERAGE_SAMPLES
          s.cpuSamples x.1)
      · have hcnt2 : (pollStep s x.1 x.2.1 x.2.2).1.cpuExceededCount
            ≤ cur + 1 := by
          rw [pollStep_fst]
          calc (cpuCheck s.cpuLimit s.cpuExceededCount
                (listAvg (pushTrim CPU_ROLLING_AVERAGE_SAMPLES
                  s.cpuSamples x.1))).1
              ≤ s.cpuExceededCount + 1 := cpuCheck_count_le _ _ _
            _ ≤ cur + 1 := by omega
        have := ih (pollStep s x.1 x.2.1 x.2.2).1 (cur + 1) hlim2 hcnt2
          c0 l0 hrest
        rw [hwin] at this
        rw [if_pos (decide_eq_true hge)]
        exact this
      · have hcnt2 : (pollStep s x.1 x.2.1 x.2.2).1.cpuExceededCount
            ≤ 0 := by
          rw [pollStep_fst]
          simp only [hlim]
          rw [cpuCheck_count_miss cl _ _ (by tauto)]
        have := ih (pollStep s x.1 x.2.1 x.2.2).1 0 hlim2 hcnt2 c0 l0 hrest
        rw [hwin] at this
        rw [if_neg (by simpa using hge)]
        exact le_trans this (Nat.le_max_right _ _)

/-- C5: for a monitored entry, a threshold-exceeded event of type
memory (resp. cpu) is emitted only after a run of at least 3 (resp. 5)
consecutive polls whose compared value - the sampled RSS for memory,
the three-sample rolling cpu average for cpu - is at or above the
configured limit; the corresponding counter is reset to zero by any
poll whose compared value is below the limit, and also resets
immediately on the poll that emits the event. -/
theorem C5_hysteresis (pid : Nat) (ml cl : ℚ) (samples : List Sample)
    (hml : ml ≠ 0) :
    (∀ c0 l0, MonitorEvent.thresholdMemory c0 l0 ∈
        (monitorRun (startMonitoring pid (some ml) (some cl)) samples).2 →
      MEMORY_CHECK_CONSECUTIVE ≤ maxRunFrom 0
        (samples.map (fun x => decide (ml ≤ x.2.1)))) ∧
    (∀ c0 l0, MonitorEvent.thresholdCpu c0 l0 ∈
        (monitorRun (startMonitoring pid (some ml) (some cl)) samples).2 →
      CPU_CHECK_CONSECUTIVE ≤ maxRunFrom 0
        ((rollAvgs [] samples).map (fun a => decide (cl ≤ a)))) ∧
    (∀ (s : MonitorState) (c m : ℚ) (t : Int), s.memoryLimit = some ml →
      m < ml → (pollStep s c m t).1.memoryExceededCount = 0) ∧
    (∀ (s : MonitorState) (c m : ℚ) (t : Int) (c0 l0 : ℚ),
      s.memoryLimit = some ml →
      MonitorEvent.thresholdMemory c0 l0 ∈ (pollStep s c m t).2 →
      (pollStep s c m t).1.memoryExceededCount = 0) ∧
    (∀ (s : MonitorState) (c m : ℚ) (t : Int), s.cpuLimit = some cl →
      listAvg (pushTrim CPU_ROLLING_AVERAGE_SAMPLES s.cpuSamples c) < cl →
      (pollStep s c m t).1.cpuExceededCount = 0) ∧
    (∀ (s : MonitorState) (c m : ℚ) (t : Int) (c0 l0 : ℚ),
      s.cpuLimit = some cl →
      MonitorEvent.thresholdCpu c0 l0 ∈ (pollStep s c m t).2 →
      (pollStep s c m t).1.cpuExceededCount = 0) := by
  refine ⟨?_, ?_, ?_, ?_, ?_, ?_⟩
  · intro c0 l0 h
    exact monitorRun_memory_threshold ml hml samples _ 0 rfl (le_refl 0) c0 l0 h
  · intro c0 l0 h
    exact monitorRun_cpu_threshold cl samples _ 0 rfl (le_refl 0) c0 l0 h
  · intro s c m t hlim hm
    show (memCheck s.memoryLimit s.memoryExceededCount m).1 = 0
    rw [hlim]
    exact memCheck_count_below ml _ _ hml (not_le.mpr hm)
  · intro s c m t c0 l0 hlim h
    have hm := pollStep_thresholdMemory_mem s c m t c0 l0 h
    rw [hlim] at hm
    show (memCheck s.memoryLimit s.memoryExceededCount m).1 = 0
    rw [hlim]
    exact memCheck_threshold_reset ml _ m c0 l0 hm
  · intro s c m t hlim hlt
    show (cpuCheck s.cpuLimit s.cpuExceededCount
      (listAvg (pushTrim CPU_ROLLING_AVERAGE_SAMPLES s.cpuSamples c))).1 = 0
    rw [hlim]
    apply cpuCheck_count_miss
    intro hcon
    exact absurd hcon.2 (not_le.mpr hlt)
  · intro s c m t c0 l0 hlim h
    have hm := pollStep_thresholdCpu_mem s c m t c0 l0 h
    rw [hlim] at hm
    show (cpuCheck s.cpuLimit s.cpuExceededCount
      (listAvg (pushTrim CPU_ROLLING_AVERAGE_SAMPLES s.cpuSamples c))).1 = 0
    rw [hlim]
    exact cpuCheck_threshold_reset cl _ _ c0 l0 hm

theorem C5_hysteresis_witness :
    (100 : ℚ) ≠ 0 ∧
    MEMORY_CHECK_CONSECUTIVE ≤ maxRunFrom 0
      (([((0 : ℚ), (100 : ℚ), (0 : Int)), (0, 100, 1), (0, 100, 2)]).map
        (fun x => decide ((100 : ℚ) ≤ x.2.1))) := by
  refine ⟨by norm_num, ?_⟩
  apply (C5_hysteresis 7 100 50 [(0, 100, 0), (0, 100, 1), (0, 100, 2)]
    (by norm_num)).1 100 100
  norm_num [monitorRun, pollStep, memCheck, cpuCheck, pushTrim,
    pushTrimMetrics, listAvg, startMonitoring, MEMORY_CHECK_CONSECUTIVE,
    CPU_CHECK_CONSECUTIVE, CPU_ROLLING_AVERAGE_SAMPLES,
    RESOURCE_HISTORY_SIZE, MEMORY_WARNING_THRESHOLD]

end TurboProcess
